import Mathlib

/-!
Verification of the wake-word detection core of an ESP32 voice-assistant
firmware, embedded shallowly from `src/wake_word.cpp` / `src/wake_word.h`.

Modelling conventions:
- C `float` arithmetic is idealized as exact arithmetic: the feature pipeline
  and the pattern state machine are modelled over `ℚ` (all of their constants
  are rational), while `calculateEnergy`, which takes a square root, is
  modelled over `ℝ`.  IEEE division is modelled by an `Option`-valued
  division where `none` stands for the non-finite results (NaN / infinity)
  produced when the divisor is zero.
- `uint32_t` millisecond timestamps are modelled as `ℕ` together with an
  explicit wrap-around subtraction `elapsed32` that matches C unsigned
  32-bit subtraction.
- The FreeRTOS task, the I2S driver and `Serial` logging are environment
  effects: the success of the I2S configuration enters `startListening` as a
  boolean parameter, and the per-frame `millis()` reading enters each step
  as the parameter `now`.
- The base threshold constants `WAKE_WORD_ENERGY_THRESHOLD` and
  `WAKE_WORD_TRIGGER_THRESHOLD` come from `config.h`, which is not part of
  the source snapshot; they are kept as parameters throughout.
-/

unseal Rat.add Rat.mul Rat.sub Rat.inv Rat.ofScientific

set_option maxRecDepth 100000

/-- The five states of the wake-pattern machine (`wake_word.h`, lines 86-92). -/
inductive PatternState : Type
  | IDLE
  | RISING_EDGE
  | SUSTAINED
  | FALLING_EDGE
  | DETECTED
deriving DecidableEq

/-- The mutable state read and written by `detectWakePattern`:
`_patternState`, `_patternStartTime`, `_sustainedFrames`
(`wake_word.h`, lines 93-95). -/
structure MatcherState where
  patternState : PatternState
  patternStartTime : Nat
  sustainedFrames : Int
deriving DecidableEq

/-- `2 ^ 32`, the modulus of `uint32_t` arithmetic. -/
def U32 : Nat := 4294967296

/-- `HISTORY_SIZE = 32` (`wake_word.h`, line 78). -/
def HISTORY_SIZE : Nat := 32

/-- `DETECTION_COOLDOWN_MS = 2000` (`wake_word.h`, line 100). -/
def DETECTION_COOLDOWN_MS : Nat := 2000

/-- C unsigned 32-bit subtraction `now - start` of two `uint32_t`
millisecond timestamps, as used for the elapsed-time computations in
`wake_word.cpp` (lines 236, 299, 325, 339). -/
def elapsed32 (now start : Nat) : Nat :=
  (now % U32 + U32 - start % U32) % U32

/-- The `switch (_patternState)` block of `WakeWordDetector::detectWakePattern`
(`wake_word.cpp`, lines 293-357), as a pure step function.  Inputs are the
current-frame features and rolling average that the surrounding code computes
from the history ring, plus the `millis()` reading `now`.  Float literals
(`1.5f`, `0.8f`, ...) are idealized as exact rationals.  Returns the updated
matcher state and the boolean return value of the C function. -/
def patternStep (energyThreshold currentEnergy currentZcr avgEnergy : ℚ)
    (now : Nat) (s : MatcherState) : MatcherState × Bool :=
  match s.patternState with
  | PatternState.IDLE =>
      if currentEnergy > energyThreshold ∧ currentEnergy > avgEnergy * 1.5 then
        ({ s with patternState := PatternState.RISING_EDGE,
                  patternStartTime := now % U32,
                  sustainedFrames := 0 }, false)
      else (s, false)
  | PatternState.RISING_EDGE =>
      if currentEnergy > energyThreshold * 0.8 ∧ currentZcr > 0.02 ∧ currentZcr < 0.2 then
        let sf := s.sustainedFrames + 1
        if sf ≥ 3 then
          ({ s with patternState := PatternState.SUSTAINED, sustainedFrames := sf }, false)
        else
          ({ s with sustainedFrames := sf }, false)
      else if currentEnergy < energyThreshold * 0.3 then
        ({ s with patternState := PatternState.IDLE }, false)
      else (s, false)
  | PatternState.SUSTAINED =>
      if currentEnergy > energyThreshold * 0.5 then
        let sf := s.sustainedFrames + 1
        if elapsed32 now s.patternStartTime > 1500 then
          ({ s with patternState := PatternState.IDLE, sustainedFrames := sf }, false)
        else
          ({ s with sustainedFrames := sf }, false)
      else
        ({ s with patternState := PatternState.FALLING_EDGE }, false)
  | PatternState.FALLING_EDGE =>
      if 300 ≤ elapsed32 now s.patternStartTime ∧ elapsed32 now s.patternStartTime ≤ 1200
          ∧ s.sustainedFrames ≥ 5 then
        ({ s with patternState := PatternState.DETECTED }, true)
      else
        ({ s with patternState := PatternState.IDLE }, false)
  | PatternState.DETECTED =>
      ({ s with patternState := PatternState.IDLE }, false)

/-- Feeds a list of per-frame inputs `(currentEnergy, currentZcr, avgEnergy, now)`
through `patternStep`, collecting the boolean outputs in order. -/
def runPattern (energyThreshold : ℚ) (s : MatcherState) :
    List (ℚ × ℚ × ℚ × Nat) → MatcherState × List Bool
  | [] => (s, [])
  | (e, z, avg, t) :: rest =>
      let r := patternStep energyThreshold e z avg t s
      let rr := runPattern energyThreshold r.1 rest
      (rr.1, r.2 :: rr.2)

/-- The member state of `WakeWordDetector` relevant to its observable
behaviour (`wake_word.h`, lines 60-100).  The audio buffer, task handle and
callback pointer are environment resources and are not part of the model;
the invocation of the registered callback is reported as an event instead. -/
structure Detector where
  initialized : Bool
  listening : Bool
  enabled : Bool
  taskRunning : Bool
  energyHistory : List ℚ
  zcrHistory : List ℚ
  historyIndex : Nat
  sensitivity : ℚ
  energyThreshold : ℚ
  triggerThreshold : ℚ
  matcher : MatcherState
  detectionCount : Int
  lastDetectionTime : Nat
deriving DecidableEq

/-- Observable outcome of one `processAudioFrame` call: whether
`detectWakePattern` returned true (`fired`), whether the detection was
accepted by the cooldown check — timestamp recorded, `_detectionCount`
incremented and the registered callback invoked — (`invoked`), and the
`millis()` reading of the frame. -/
structure FrameRes where
  fired : Bool
  invoked : Bool
  now : Nat
deriving DecidableEq

/-- `WakeWordDetector::detectWakePattern` (`wake_word.cpp`, lines 269-360):
computes the rolling average energy over the whole history ring and the
current-frame features at index `(_historyIndex + HISTORY_SIZE - 1) % HISTORY_SIZE`,
then runs the state-machine step.  The average ZCR (lines 277-282) is
computed by the C code but never read, so it is omitted.  `now` is the
`millis()` reading. -/
def detectWakePattern (now : Nat) (d : Detector) : Detector × Bool :=
  let avgEnergy := d.energyHistory.sum / (HISTORY_SIZE : ℚ)
  let currentIdx := (d.historyIndex + HISTORY_SIZE - 1) % HISTORY_SIZE
  let currentEnergy := d.energyHistory.getD currentIdx 0
  let currentZcr := d.zcrHistory.getD currentIdx 0
  let r := patternStep d.energyThreshold currentEnergy currentZcr avgEnergy now d.matcher
  ({ d with matcher := r.1 }, r.2)

/-- Lines 227-230 of `WakeWordDetector::processAudioFrame`: store the frame
features in the history ring and advance the ring index modulo
`HISTORY_SIZE`. -/
def storeFeatures (energy zcr : ℚ) (d : Detector) : Detector :=
  { d with energyHistory := d.energyHistory.set d.historyIndex energy,
           zcrHistory := d.zcrHistory.set d.historyIndex zcr,
           historyIndex := (d.historyIndex + 1) % HISTORY_SIZE }

/-- `WakeWordDetector::processAudioFrame` (`wake_word.cpp`, lines 222-247)
from line 227 on: stores the features of the frame in the history ring
(`storeFeatures`), runs `detectWakePattern`, and on a positive return
applies the cooldown check `now - _lastDetectionTime >= DETECTION_COOLDOWN_MS`
(uint32 arithmetic).  The two feature-extraction calls of lines 224-225 are
modelled separately (`calculateEnergy`, `calculateZeroCrossingRate`, below)
because the energy passes through a real square root; this function takes
the resulting `energy` and `zcr` feature values as inputs.  The two
`millis()` readings of one frame are identified as the single value `now`. -/
def processAudioFrame (energy zcr : ℚ) (now : Nat) (d : Detector) : Detector × FrameRes :=
  let r := detectWakePattern now (storeFeatures energy zcr d)
  if r.2 then
    if DETECTION_COOLDOWN_MS ≤ elapsed32 now r.1.lastDetectionTime then
      ({ r.1 with lastDetectionTime := now % U32,
                  detectionCount := r.1.detectionCount + 1 },
        ⟨true, true, now⟩)
    else (r.1, ⟨true, false, now⟩)
  else (r.1, ⟨false, false, now⟩)

/-- Feeds a list of frames `(energy, zcr, now)` through `processAudioFrame`,
collecting the per-frame outcomes in order. -/
def runD (d : Detector) : List (ℚ × ℚ × Nat) → Detector × List FrameRes
  | [] => (d, [])
  | (e, z, t) :: rest =>
      let r := processAudioFrame e z t d
      let rr := runD r.1 rest
      (rr.1, r.2 :: rr.2)

/-- The detector state right after `begin()` and a successful
`startListening()`: the constructor initialism of `wake_word.cpp` lines 5-25
(sensitivity `0.5`, `_detectionCount = 0`, `_lastDetectionTime = 0`,
pattern state IDLE) with zeroed history buffers and thresholds set to the
`config.h` base constants, which are parameters here. -/
def initialDetector (baseEnergyThreshold baseTriggerThreshold : ℚ) : Detector :=
  { initialized := true
    listening := true
    enabled := true
    taskRunning := true
    energyHistory := List.replicate HISTORY_SIZE 0
    zcrHistory := List.replicate HISTORY_SIZE 0
    historyIndex := 0
    sensitivity := 0.5
    energyThreshold := baseEnergyThreshold
    triggerThreshold := baseTriggerThreshold
    matcher := ⟨PatternState.IDLE, 0, 0⟩
    detectionCount := 0
    lastDetectionTime := 0 }

/-- The Arduino `constrain(amt, low, high)` macro:
`(amt < low) ? low : ((amt > high) ? high : amt)`. -/
def constrain (amt low high : ℚ) : ℚ :=
  if amt < low then low else if amt > high then high else amt

/-- `WakeWordDetector::setSensitivity` (`wake_word.cpp`, lines 132-143):
clamps the argument to `[0, 1]` and recomputes both thresholds as
`base / (1 + (1 - sensitivity))`.  The base constants from `config.h` are
parameters. -/
def setSensitivity (baseEnergyThreshold baseTriggerThreshold sensitivity : ℚ)
    (d : Detector) : Detector :=
  let s := constrain sensitivity 0 1
  let factor := 1 + (1 - s)
  { d with sensitivity := s,
           energyThreshold := baseEnergyThreshold / factor,
           triggerThreshold := baseTriggerThreshold / factor }

/-- `WakeWordDetector::setEnabled` (`wake_word.h`, line 39): writes the
`_enabled` flag and nothing else. -/
def setEnabled (enabled : Bool) (d : Detector) : Detector :=
  { d with enabled := enabled }

/-- `WakeWordDetector::startListening` (`wake_word.cpp`, lines 82-112).
Returns unchanged when uninitialized, already listening or disabled
(line 83), and when the I2S configuration fails (lines 86-89); the success
of `configureI2S` (lines 145-185, pure hardware interaction) enters as the
parameter `configureI2SOk`.  On success it resets the pattern state, the
ring index and the history buffers (lines 92-96; `_patternStartTime` is not
reset), starts the detection task and sets `_listening`. -/
def startListening (configureI2SOk : Bool) (d : Detector) : Detector :=
  if !d.initialized || d.listening || !d.enabled then d
  else if !configureI2SOk then d
  else
    { d with matcher := ⟨PatternState.IDLE, d.matcher.patternStartTime, 0⟩,
             historyIndex := 0,
             energyHistory := List.replicate HISTORY_SIZE 0,
             zcrHistory := List.replicate HISTORY_SIZE 0,
             taskRunning := true,
             listening := true }

/-- `WakeWordDetector::stopListening` (`wake_word.cpp`, lines 114-130):
returns unchanged when not listening; otherwise stops the task and clears
`_listening`. -/
def stopListening (d : Detector) : Detector :=
  if !d.listening then d
  else { d with taskRunning := false, listening := false }

/-- IEEE float division idealized over `ℚ`: `none` stands for the
non-finite float (NaN or infinity) that C float division produces when the
divisor is `0`. -/
def fdiv (a b : ℚ) : Option ℚ :=
  if b = 0 then none else some (a / b)

/-- The zero-crossing count of `WakeWordDetector::calculateZeroCrossingRate`
(`wake_word.cpp`, lines 259-265): adjacent pairs where the samples straddle
zero, `0` counting as non-negative. -/
def zcrCrossings : List Int → Nat
  | a :: b :: rest =>
      (if (a ≥ 0 ∧ b < 0) ∨ (a < 0 ∧ b ≥ 0) then 1 else 0) + zcrCrossings (b :: rest)
  | _ => 0

/-- `WakeWordDetector::calculateZeroCrossingRate` (`wake_word.cpp`,
lines 258-267): `(float)crossings / count`, with no guard on `count`, so an
empty frame divides by zero (`none`). -/
def calculateZeroCrossingRate (samples : List Int) : Option ℚ :=
  fdiv (zcrCrossings samples) samples.length

/-- IEEE float division idealized over `ℝ`: `none` stands for the
non-finite float produced when the divisor is `0`. -/
noncomputable def fdivR (a b : ℝ) : Option ℝ :=
  if b = 0 then none else some (a / b)

/-- `WakeWordDetector::calculateEnergy` (`wake_word.cpp`, lines 249-256):
sum of `(s / 32768)²` over the frame, divided by the sample count (no guard,
so an empty frame divides by zero, `none`), square root, times `32768`. -/
noncomputable def calculateEnergy (samples : List Int) : Option ℝ :=
  let sum : ℝ := (samples.map (fun s => ((s : ℝ) / 32768) * ((s : ℝ) / 32768))).sum
  (fdivR sum samples.length).map (fun meanSquare => Real.sqrt meanSquare * 32768)

/-! ### Helper lemmas -/

lemma elapsed32_eq_sub {a b : Nat} (hba : b ≤ a) (ha : a < U32) :
    elapsed32 a b = a - b := by
  have hb : b < U32 := lt_of_le_of_lt hba ha
  unfold elapsed32
  rw [Nat.mod_eq_of_lt ha, Nat.mod_eq_of_lt hb]
  have h1 : a + U32 - b = a - b + U32 := by omega
  rw [h1, Nat.add_mod_right, Nat.mod_eq_of_lt (by omega)]

lemma detectWakePattern_lastDetectionTime (t : Nat) (d : Detector) :
    (detectWakePattern t d).1.lastDetectionTime = d.lastDetectionTime := rfl

lemma detectWakePattern_detectionCount (t : Nat) (d : Detector) :
    (detectWakePattern t d).1.detectionCount = d.detectionCount := rfl

lemma storeFeatures_lastDetectionTime (e z : ℚ) (d : Detector) :
    (storeFeatures e z d).lastDetectionTime = d.lastDetectionTime := rfl

lemma processAudioFrame_fired (e z : ℚ) (t : Nat) (d : Detector) :
    (processAudioFrame e z t d).2.fired =
      (detectWakePattern t (storeFeatures e z d)).2 := by
  simp only [processAudioFrame]
  split
  · next h => split <;> exact h.symm
  · next h =>
      rw [Bool.not_eq_true] at h
      exact h.symm

lemma processAudioFrame_suppressed (e z : ℚ) (t : Nat) (d : Detector)
    (h : elapsed32 t d.lastDetectionTime < DETECTION_COOLDOWN_MS) :
    (processAudioFrame e z t d).2.invoked = false ∧
    (processAudioFrame e z t d).1.lastDetectionTime = d.lastDetectionTime ∧
    (processAudioFrame e z t d).1.detectionCount = d.detectionCount := by
  simp only [processAudioFrame]
  split
  · split
    · next hc => exact absurd hc (not_le.mpr h)
    · exact ⟨rfl, rfl, rfl⟩
  · exact ⟨rfl, rfl, rfl⟩

lemma processAudioFrame_accepted (e z : ℚ) (t : Nat) (d : Detector)
    (hf : (processAudioFrame e z t d).2.fired = true)
    (hc : DETECTION_COOLDOWN_MS ≤ elapsed32 t d.lastDetectionTime) :
    (processAudioFrame e z t d).2.invoked = true ∧
    (processAudioFrame e z t d).1.lastDetectionTime = t % U32 := by
  rw [processAudioFrame_fired] at hf
  simp only [processAudioFrame]
  split
  · split
    · exact ⟨rfl, rfl⟩
    · next hcc => exact absurd hc hcc
  · next h1 => exact absurd hf h1

lemma processAudioFrame_not_fired (e z : ℚ) (t : Nat) (d : Detector)
    (hf : (processAudioFrame e z t d).2.fired = false) :
    (processAudioFrame e z t d).2.invoked = false ∧
    (processAudioFrame e z t d).1.lastDetectionTime = d.lastDetectionTime ∧
    (processAudioFrame e z t d).1.detectionCount = d.detectionCount := by
  rw [processAudioFrame_fired] at hf
  simp only [processAudioFrame]
  split
  · next h1 => rw [hf] at h1; exact absurd h1 (by simp)
  · exact ⟨rfl, rfl, rfl⟩

lemma runD_cons (d : Detector) (e z : ℚ) (t : Nat) (rest : List (ℚ × ℚ × Nat)) :
    runD d ((e, z, t) :: rest) =
      ((runD (processAudioFrame e z t d).1 rest).1,
        (processAudioFrame e z t d).2 :: (runD (processAudioFrame e z t d).1 rest).2) := rfl

/-- While every incoming frame time stays inside the cooldown window that
opened at time `T`, the recorded last-detection time never moves and no
frame invokes the callback. -/
lemma runD_window : ∀ (frames : List (ℚ × ℚ × Nat)) (d : Detector) (T : Nat),
    d.lastDetectionTime = T → T < U32 →
    (∀ f ∈ frames, T ≤ f.2.2 ∧ f.2.2 < U32 ∧ f.2.2 - T < DETECTION_COOLDOWN_MS) →
    (runD d frames).1.lastDetectionTime = T ∧
    ∀ r ∈ (runD d frames).2, r.invoked = false := by
  intro frames
  induction frames with
  | nil => intro d T hT _ _; exact ⟨hT, by intro r hr; cases hr⟩
  | cons f rest ih =>
      obtain ⟨e, z, t⟩ := f
      intro d T hT hU hf
      obtain ⟨⟨h1, h2, h3⟩, hrest⟩ := List.forall_mem_cons.mp hf
      have hel : elapsed32 t d.lastDetectionTime < DETECTION_COOLDOWN_MS := by
        rw [hT, elapsed32_eq_sub h1 h2]; exact h3
      obtain ⟨hinv, hlast, _⟩ := processAudioFrame_suppressed e z t d hel
      have hlast' : (processAudioFrame e z t d).1.lastDetectionTime = T := by
        rw [hlast, hT]
      obtain ⟨ih1, ih2⟩ := ih (processAudioFrame e z t d).1 T hlast' hU hrest
      refine ⟨by rw [runD_cons]; exact ih1, ?_⟩
      intro r hr
      rw [runD_cons] at hr
      rcases List.mem_cons.mp hr with h | h
      · rw [h]; exact hinv
      · exact ih2 r h

/-- A run in which no frame fires leaves the last-detection time unchanged. -/
lemma runD_no_fire : ∀ (frames : List (ℚ × ℚ × Nat)) (d : Detector),
    (∀ r ∈ (runD d frames).2, r.fired = false) →
    (runD d frames).1.lastDetectionTime = d.lastDetectionTime := by
  intro frames
  induction frames with
  | nil => intro d _; rfl
  | cons f rest ih =>
      obtain ⟨e, z, t⟩ := f
      intro d hf
      rw [runD_cons] at hf ⊢
      have hhead : (processAudioFrame e z t d).2.fired = false :=
        hf _ (List.mem_cons_self _ _)
      obtain ⟨_, hlast, _⟩ := processAudioFrame_not_fired e z t d hhead
      have htail := ih (processAudioFrame e z t d).1 (fun r hr => hf r (List.mem_cons_of_mem _ hr))
      rw [htail, hlast]

/-! ### Claim theorems -/

lemma patternStep_true_shape (eT e z avg : ℚ) (t : Nat) (s : MatcherState)
    (h : (patternStep eT e z avg t s).2 = true) :
    s.patternState = PatternState.FALLING_EDGE ∧
    (patternStep eT e z avg t s).1.patternState = PatternState.DETECTED := by
  obtain ⟨ps, st, sf⟩ := s
  cases ps <;> simp only [patternStep] at h ⊢ <;>
    first
      | (split_ifs at h ⊢ <;> simp_all)
      | simp_all

lemma patternStep_after_detected (eT e z avg : ℚ) (t : Nat) (s : MatcherState)
    (h : s.patternState = PatternState.DETECTED) :
    patternStep eT e z avg t s = ({ s with patternState := PatternState.IDLE }, false) := by
  obtain ⟨ps, st, sf⟩ := s
  cases ps <;> first | rfl | exact PatternState.noConfusion h

/-- Claim C2: the pattern matcher returns true only on the call that takes
the FALLING_EDGE to DETECTED transition, and on the next call after entering
DETECTED it unconditionally resets the state to IDLE and returns false,
regardless of the input feature values. -/
theorem c2_pattern_one_shot (eT e z avg : ℚ) (t : Nat) (s : MatcherState) :
    ((patternStep eT e z avg t s).2 = true →
      s.patternState = PatternState.FALLING_EDGE ∧
      (patternStep eT e z avg t s).1.patternState = PatternState.DETECTED) ∧
    (s.patternState = PatternState.DETECTED →
      patternStep eT e z avg t s = ({ s with patternState := PatternState.IDLE }, false)) :=
  ⟨patternStep_true_shape eT e z avg t s, patternStep_after_detected eT e z avg t s⟩

/-- Claim C2 witness: a concrete FALLING_EDGE to DETECTED transition that
returns true, and a concrete DETECTED state that resets to IDLE returning
false on arbitrary inputs. -/
theorem c2_pattern_one_shot_witness :
    (patternStep 800 0 0 0 400 ⟨PatternState.FALLING_EDGE, 0, 5⟩).1.patternState =
        PatternState.DETECTED ∧
    patternStep 800 123 456 789 999 ⟨PatternState.DETECTED, 7, 3⟩ =
        (⟨PatternState.IDLE, 7, 3⟩, false) :=
  ⟨((c2_pattern_one_shot 800 0 0 0 400 ⟨PatternState.FALLING_EDGE, 0, 5⟩).1 (by decide)).2,
    (c2_pattern_one_shot 800 123 456 789 999 ⟨PatternState.DETECTED, 7, 3⟩).2 rfl⟩

/-- Claim C3: the source `calculateEnergy` has no empty-frame guard —
`sum / count` is the float division `0.0f / 0`, i.e. NaN (modelled `none`),
not the `0` the specification claims; on non-empty frames the RMS formula
holds, e.g. a two-sample zero frame yields `0`. -/
theorem c3_energy_empty_frame :
    calculateEnergy [] = none ∧ calculateEnergy [0, 0] = some 0 := by
  constructor
  · simp [calculateEnergy, fdivR]
  · simp [calculateEnergy, fdivR]

/-- Claim C4: the source `calculateZeroCrossingRate` has no short-frame
guard — for an empty frame `(float)crossings / count` divides by zero
(NaN, modelled `none`) instead of returning the specified `0`; a length-1
frame, an all-same-sign frame and a maximally alternating frame behave as
specified (`0`, `0`, `(count-1)/count`). -/
theorem c4_zcr_eval :
    calculateZeroCrossingRate [] = none ∧
    calculateZeroCrossingRate [1000] = some 0 ∧
    calculateZeroCrossingRate [5, 5, 5, 5] = some 0 ∧
    calculateZeroCrossingRate [1000, -1000, 1000, -1000] = some (3 / 4) := by
  refine ⟨rfl, ?_, ?_, ?_⟩ <;> decide

/-- Claim C5: `setSensitivity` computes `base / (1 + (1 - sensitivity))` as
claimed and clamps to `[0, 1]`, but the claimed monotonicity is reversed:
with positive base thresholds (800 and 10 here), sensitivity `0.9` yields
strictly LARGER derived thresholds than sensitivity `0.3`, contradicting
the comment in the source (higher sensitivity = lower thresholds) and the
specification. -/
theorem c5_sensitivity_reversed :
    (setSensitivity 800 10 0.9 (initialDetector 800 10)).energyThreshold =
        800 / (1 + (1 - 0.9)) ∧
    (setSensitivity 800 10 0.3 (initialDetector 800 10)).energyThreshold =
        800 / (1 + (1 - 0.3)) ∧
    (setSensitivity 800 10 1.5 (initialDetector 800 10)).sensitivity = 1 ∧
    (setSensitivity 800 10 0.9 (initialDetector 800 10)).energyThreshold >
      (setSensitivity 800 10 0.3 (initialDetector 800 10)).energyThreshold ∧
    (setSensitivity 800 10 0.9 (initialDetector 800 10)).triggerThreshold >
      (setSensitivity 800 10 0.3 (initialDetector 800 10)).triggerThreshold := by
  refine ⟨?_, ?_, ?_, ?_, ?_⟩ <;> decide

/-- Claim C7: from IDLE with a positive energy threshold, frames with
energy 0 and zcr 0 never return true and leave the matcher state unchanged
(in particular IDLE) after every frame, whatever the rolling average and
timestamps are. -/
theorem c7_no_detection_on_silence (eT : ℚ) (hT : 0 < eT) (t0 : Nat) (sf : Int)
    (frames : List (ℚ × ℚ × ℚ × Nat)) (hsil : ∀ f ∈ frames, f.1 = 0 ∧ f.2.1 = 0) :
    runPattern eT ⟨PatternState.IDLE, t0, sf⟩ frames =
      (⟨PatternState.IDLE, t0, sf⟩, List.replicate frames.length false) := by
  induction frames with
  | nil => rfl
  | cons f rest ih =>
      obtain ⟨e, z, avg, t⟩ := f
      obtain ⟨⟨he, hz⟩, hrest⟩ := List.forall_mem_cons.mp hsil
      simp only at he hz
      subst he
      have hstep : patternStep eT 0 z avg t ⟨PatternState.IDLE, t0, sf⟩ =
          (⟨PatternState.IDLE, t0, sf⟩, false) := by
        simp only [patternStep]
        rw [if_neg]
        intro hc
        exact absurd hc.1 (not_lt.mpr hT.le)
      simp only [runPattern, hstep, ih hrest, List.length_cons, List.replicate_succ]

/-- Claim C7 witness: twenty silent frames at threshold 800 leave the
matcher in IDLE and never emit a detection. -/
theorem c7_no_detection_on_silence_witness :
    (0 : ℚ) < 800 ∧
    runPattern 800 ⟨PatternState.IDLE, 0, 0⟩
        (List.replicate 20 ((0 : ℚ), (0 : ℚ), (100 : ℚ), (50 : Nat))) =
      (⟨PatternState.IDLE, 0, 0⟩, List.replicate 20 false) := by
  refine ⟨by norm_num, ?_⟩
  have h := c7_no_detection_on_silence 800 (by norm_num) 0 0
    (List.replicate 20 ((0 : ℚ), (0 : ℚ), (100 : ℚ), (50 : Nat))) (by decide)
  simpa using h

/-- Claim C6: `startListening` is a no-op in an ineligible state
(uninitialized, already listening, or disabled); in an eligible state the
detector ends up listening exactly when the I2S configuration succeeds, and
on configuration failure the state is unchanged, so `isListening` stays
false. -/
theorem c6_startListening_contract (cfg : Bool) (d : Detector) :
    ((d.initialized = false ∨ d.listening = true ∨ d.enabled = false) →
      startListening cfg d = d) ∧
    (d.initialized = true → d.listening = false → d.enabled = true →
      ((startListening cfg d).listening = true ↔ cfg = true)) := by
  constructor
  · rintro (h | h | h) <;> simp [startListening, h]
  · intro h1 h2 h3
    cases cfg <;> simp [startListening, h1, h2, h3]

/-- Claim C6 witness: on an already-listening detector `startListening` is
the identity; on an eligible detector it enters the listening state exactly
when the configuration succeeds. -/
theorem c6_startListening_contract_witness :
    startListening true (initialDetector 800 10) = initialDetector 800 10 ∧
    (startListening true { initialDetector 800 10 with listening := false }).listening = true ∧
    (startListening false { initialDetector 800 10 with listening := false }).listening = false := by
  refine ⟨?_, ?_, ?_⟩
  · exact (c6_startListening_contract true (initialDetector 800 10)).1 (Or.inr (Or.inl rfl))
  · exact ((c6_startListening_contract true
      { initialDetector 800 10 with listening := false }).2 rfl rfl rfl).mpr rfl
  · have h := (c6_startListening_contract false
      { initialDetector 800 10 with listening := false }).2 rfl rfl rfl
    exact Bool.eq_false_iff.mpr (fun hc => by simpa using h.mp hc)

lemma setEnabled_lastDetectionTime (b : Bool) (d : Detector) :
    (setEnabled b d).lastDetectionTime = d.lastDetectionTime := rfl

lemma storeFeatures_setEnabled (e z : ℚ) (b : Bool) (d : Detector) :
    storeFeatures e z (setEnabled b d) = setEnabled b (storeFeatures e z d) := rfl

lemma detectWakePattern_setEnabled (t : Nat) (b : Bool) (d : Detector) :
    detectWakePattern t (setEnabled b d) =
      (setEnabled b (detectWakePattern t d).1, (detectWakePattern t d).2) := rfl

lemma processAudioFrame_setEnabled (e z : ℚ) (t : Nat) (b : Bool) (d : Detector) :
    processAudioFrame e z t (setEnabled b d) =
      (setEnabled b (processAudioFrame e z t d).1, (processAudioFrame e z t d).2) := by
  simp only [processAudioFrame, storeFeatures_setEnabled, detectWakePattern_setEnabled,
    setEnabled_lastDetectionTime]
  split_ifs <;> rfl

/-- Claim C10: `setEnabled false` on a listening detector leaves it
listening, frame processing behaves identically (apart from the enabled
flag itself), a later `startListening` is a no-op while disabled, and
`stopListening` still stops the session. -/
theorem c10_setEnabled_keeps_listening (d : Detector) (h : d.listening = true) :
    (setEnabled false d).listening = true ∧
    (∀ (e z : ℚ) (t : Nat),
      processAudioFrame e z t (setEnabled false d) =
        (setEnabled false (processAudioFrame e z t d).1, (processAudioFrame e z t d).2)) ∧
    (∀ cfg, startListening cfg (setEnabled false d) = setEnabled false d) ∧
    (stopListening (setEnabled false d)).listening = false := by
  refine ⟨h, fun e z t => processAudioFrame_setEnabled e z t false d, fun cfg => ?_, ?_⟩
  · simp [startListening, setEnabled]
  · simp [stopListening, setEnabled, h]

/-- Claim C10 witness: the concrete listening detector keeps listening and
processing after `setEnabled false`. -/
theorem c10_setEnabled_keeps_listening_witness :
    (setEnabled false (initialDetector 800 10)).listening = true ∧
    processAudioFrame 0 0 100 (setEnabled false (initialDetector 800 10)) =
      (setEnabled false (processAudioFrame 0 0 100 (initialDetector 800 10)).1,
        (processAudioFrame 0 0 100 (initialDetector 800 10)).2) ∧
    startListening true (setEnabled false (initialDetector 800 10)) =
      setEnabled false (initialDetector 800 10) ∧
    (stopListening (setEnabled false (initialDetector 800 10))).listening = false := by
  have h := c10_setEnabled_keeps_listening (initialDetector 800 10) rfl
  exact ⟨h.1, h.2.1 0 0 100, h.2.2.1 true, h.2.2.2⟩

/-- Claim C9: with `_lastDetectionTime` still at its boot value 0, a pattern
completion at any time earlier than `DETECTION_COOLDOWN_MS` is silently
suppressed: no callback invocation, no detection-count increment, even
though no detection has ever been accepted. -/
theorem c9_boot_suppression (d : Detector) (e z : ℚ) (t : Nat)
    (hL : d.lastDetectionTime = 0) (ht : t < DETECTION_COOLDOWN_MS)
    (_hf : (processAudioFrame e z t d).2.fired = true) :
    (processAudioFrame e z t d).2.invoked = false ∧
    (processAudioFrame e z t d).1.detectionCount = d.detectionCount ∧
    (processAudioFrame e z t d).1.lastDetectionTime = 0 := by
  have htU : t < U32 := lt_trans ht (by norm_num [U32, DETECTION_COOLDOWN_MS])
  have hel : elapsed32 t d.lastDetectionTime < DETECTION_COOLDOWN_MS := by
    rw [hL, elapsed32_eq_sub (Nat.zero_le t) htU]
    simpa using ht
  obtain ⟨h1, h2, h3⟩ := processAudioFrame_suppressed e z t d hel
  exact ⟨h1, h3, by rw [h2, hL]⟩

/-- A detector primed one step short of completion, used to witness the
cooldown claims: FALLING_EDGE with five sustained frames. -/
def bootDetector : Detector :=
  { initialDetector 800 10 with matcher := ⟨PatternState.FALLING_EDGE, 0, 5⟩ }

/-- Claim C9 witness: a completion fires at 500 ms after boot and is
suppressed. -/
theorem c9_boot_suppression_witness :
    (processAudioFrame 50 0.02 500 bootDetector).2.fired = true ∧
    (processAudioFrame 50 0.02 500 bootDetector).2.invoked = false ∧
    (processAudioFrame 50 0.02 500 bootDetector).1.detectionCount = (0 : Int) ∧
    (processAudioFrame 50 0.02 500 bootDetector).1.lastDetectionTime = 0 := by
  have h := c9_boot_suppression bootDetector 50 0.02 500 rfl (by decide) (by decide)
  exact ⟨by decide, h.1, h.2.1, h.2.2⟩

/-- A frame sequence from the fresh-boot state that completes the wake
pattern twice, at 700 ms and at 1600 ms (900 ms apart, inside the cooldown
window). -/
def c1Frames : List (ℚ × ℚ × Nat) :=
  [ (1000, 0.05, 0), (900, 0.08, 100), (900, 0.08, 200), (900, 0.08, 300),
    (900, 0.08, 400), (900, 0.08, 500), (100, 0.05, 600), (50, 0.02, 700),
    (50, 0.02, 800), (1000, 0.05, 900), (900, 0.08, 1000), (900, 0.08, 1100),
    (900, 0.08, 1200), (900, 0.08, 1300), (900, 0.08, 1400), (100, 0.05, 1500),
    (50, 0.02, 1600) ]

/-- Claim C1 counterexample: from the boot state (`_lastDetectionTime = 0`)
the run `c1Frames` produces two pattern completions (frames 7 and 16, at
700 ms and 1600 ms, 900 ms apart) yet invokes the callback zero times — not
once as the claim requires — because both completions fall inside the
cooldown window measured from the boot value 0. -/
theorem c1_counterexample_boot_cooldown :
    ((runD (initialDetector 800 10) c1Frames).2.map FrameRes.fired =
      [false, false, false, false, false, false, false, true,
       false, false, false, false, false, false, false, false, true]) ∧
    ((runD (initialDetector 800 10) c1Frames).2.map FrameRes.invoked =
      List.replicate 17 false) := by
  constructor <;> decide

/-- Claim C1 (amended): provided the first completion is eligible — it
occurs at least `DETECTION_COOLDOWN_MS` after the recorded last-detection
time (which is 0 at boot) — the cooldown behaves as the claim states: the
first completion invokes the callback; any later completion within
`DETECTION_COOLDOWN_MS` of it does not; and a later completion at least
`DETECTION_COOLDOWN_MS` after it (with no completions in between) invokes
the callback again.  Times are nondecreasing and below `2 ^ 32`. -/
theorem c1_amended_cooldown
    (d0 : Detector) (e1 z1 : ℚ) (t1 : Nat) (mid : List (ℚ × ℚ × Nat))
    (e2 z2 : ℚ) (t2 : Nat)
    (ht1 : t1 < U32)
    (helig : d0.lastDetectionTime + DETECTION_COOLDOWN_MS ≤ t1)
    (hf1 : (processAudioFrame e1 z1 t1 d0).2.fired = true)
    (ht12 : t1 ≤ t2) (ht2 : t2 < U32) :
    (processAudioFrame e1 z1 t1 d0).2.invoked = true ∧
    (t2 - t1 < DETECTION_COOLDOWN_MS →
      (∀ f ∈ mid, t1 ≤ f.2.2 ∧ f.2.2 < U32 ∧ f.2.2 - t1 < DETECTION_COOLDOWN_MS) →
      (processAudioFrame e2 z2 t2
        (runD (processAudioFrame e1 z1 t1 d0).1 mid).1).2.invoked = false) ∧
    (DETECTION_COOLDOWN_MS ≤ t2 - t1 →
      (∀ r ∈ (runD (processAudioFrame e1 z1 t1 d0).1 mid).2, r.fired = false) →
      (processAudioFrame e2 z2 t2
        (runD (processAudioFrame e1 z1 t1 d0).1 mid).1).2.fired = true →
      (processAudioFrame e2 z2 t2
        (runD (processAudioFrame e1 z1 t1 d0).1 mid).1).2.invoked = true) := by
  have hLle : d0.lastDetectionTime ≤ t1 := le_trans (Nat.le_add_right _ _) helig
  have hel1 : DETECTION_COOLDOWN_MS ≤ elapsed32 t1 d0.lastDetectionTime := by
    rw [elapsed32_eq_sub hLle ht1]; omega
  obtain ⟨hinv1, hlast1⟩ := processAudioFrame_accepted e1 z1 t1 d0 hf1 hel1
  have hlast1Eq : (processAudioFrame e1 z1 t1 d0).1.lastDetectionTime = t1 := by
    rw [hlast1, Nat.mod_eq_of_lt ht1]
  refine ⟨hinv1, ?_, ?_⟩
  · intro hwin hmid
    obtain ⟨hmidlast, _⟩ :=
      runD_window mid (processAudioFrame e1 z1 t1 d0).1 t1 hlast1Eq ht1 hmid
    have hel2 : elapsed32 t2 (runD (processAudioFrame e1 z1 t1 d0).1 mid).1.lastDetectionTime <
        DETECTION_COOLDOWN_MS := by
      rw [hmidlast, elapsed32_eq_sub ht12 ht2]; exact hwin
    exact (processAudioFrame_suppressed e2 z2 t2 _ hel2).1
  · intro hspc hnofire hf2
    have hmidlast := runD_no_fire mid (processAudioFrame e1 z1 t1 d0).1 hnofire
    have hel2 : DETECTION_COOLDOWN_MS ≤
        elapsed32 t2 (runD (processAudioFrame e1 z1 t1 d0).1 mid).1.lastDetectionTime := by
      rw [hmidlast, hlast1Eq, elapsed32_eq_sub ht12 ht2]; exact hspc
    exact (processAudioFrame_accepted e2 z2 t2 _ hf2 hel2).1

/-- A detector primed one step short of completion with the pattern having
started at 2000 ms, so that a frame at 2500 ms completes it. -/
def c1WitnessDetector : Detector :=
  { initialDetector 800 10 with matcher := ⟨PatternState.FALLING_EDGE, 2000, 5⟩ }

/-- Middle frames for the C1 witness: the DETECTED reset, some silence,
then a second full pattern that completes on the frame after these. -/
def c1WitnessMid : List (ℚ × ℚ × Nat) :=
  [ (0, 0, 2600), (1000, 0.05, 3600), (900, 0.08, 3700), (900, 0.08, 3800),
    (900, 0.08, 3900), (900, 0.08, 4000), (900, 0.08, 4100), (100, 0.05, 4200) ]

/-- Claim C1 witness: an eligible completion at 2500 ms invokes the
callback; a completion attempt at 3000 ms (500 ms later) is suppressed; a
second completion at 4600 ms (2100 ms later, nothing firing in between) is
invoked again. -/
theorem c1_amended_cooldown_witness :
    (processAudioFrame 50 0.02 2500 c1WitnessDetector).2.invoked = true ∧
    (processAudioFrame 0 0 3000
        (runD (processAudioFrame 50 0.02 2500 c1WitnessDetector).1 []).1).2.invoked = false ∧
    (processAudioFrame 30 0.02 4600
        (runD (processAudioFrame 50 0.02 2500 c1WitnessDetector).1 c1WitnessMid).1).2.invoked = true := by
  have h1 := c1_amended_cooldown c1WitnessDetector 50 0.02 2500 [] 0 0 3000
    (by decide) (by decide) (by decide) (by decide) (by decide)
  have h2 := c1_amended_cooldown c1WitnessDetector 50 0.02 2500 c1WitnessMid 30 0.02 4600
    (by decide) (by decide) (by decide) (by decide) (by decide)
  exact ⟨h1.1, h1.2.1 (by decide) (by decide), h2.2.2 (by decide) (by decide) (by decide)⟩

/-- The feature tuples `(currentEnergy, currentZcr, avgEnergy)` of a
completing pattern, without timestamps. -/
def c8Features : List (ℚ × ℚ × ℚ) :=
  [ (1000, 0.05, 200), (900, 0.08, 200), (900, 0.08, 200), (900, 0.08, 200),
    (900, 0.08, 200), (900, 0.08, 200), (100, 0.05, 200), (50, 0.02, 200) ]

/-- Attaches per-frame timestamps to a list of feature tuples. -/
def zipFrames (fs : List (ℚ × ℚ × ℚ)) (ts : List Nat) : List (ℚ × ℚ × ℚ × Nat) :=
  List.zipWith (fun f t => (f.1, f.2.1, f.2.2, t)) fs ts

/-- Claim C8 counterexample: the identical feature sequence `c8Features`,
fed from the same initial state, ends in DETECTED (emitting true on frame 7)
when the frames arrive 100 ms apart, but ends in IDLE with no emission when
they arrive 10 ms apart — the matcher also reads the millisecond clock, so
feature tuples alone do not determine the outcome. -/
theorem c8_counterexample_time_dependence :
    (runPattern 800 ⟨PatternState.IDLE, 0, 0⟩
        (zipFrames c8Features [0, 100, 200, 300, 400, 500, 600, 700])).1.patternState =
      PatternState.DETECTED ∧
    (runPattern 800 ⟨PatternState.IDLE, 0, 0⟩
        (zipFrames c8Features [0, 10, 20, 30, 40, 50, 60, 70])).1.patternState =
      PatternState.IDLE ∧
    (runPattern 800 ⟨PatternState.IDLE, 0, 0⟩
        (zipFrames c8Features [0, 100, 200, 300, 400, 500, 600, 700])).2 ≠
      (runPattern 800 ⟨PatternState.IDLE, 0, 0⟩
        (zipFrames c8Features [0, 10, 20, 30, 40, 50, 60, 70])).2 := by
  refine ⟨?_, ?_, ?_⟩ <;> decide

lemma list_ext_features_times : ∀ (l1 l2 : List (ℚ × ℚ × ℚ × Nat)),
    l1.map (fun x => (x.1, x.2.1, x.2.2.1)) = l2.map (fun x => (x.1, x.2.1, x.2.2.1)) →
    l1.map (fun x => x.2.2.2) = l2.map (fun x => x.2.2.2) →
    l1 = l2 := by
  intro l1
  induction l1 with
  | nil =>
      intro l2 h _
      cases l2 with
      | nil => rfl
      | cons b bs => simp at h
  | cons a as ih =>
      intro l2 h ht
      cases l2 with
      | nil => simp at h
      | cons b bs =>
          simp only [List.map_cons, List.cons.injEq] at h ht
          obtain ⟨hab, hrest⟩ := h
          obtain ⟨hta, htrest⟩ := ht
          obtain ⟨a1, a2, a3, a4⟩ := a
          obtain ⟨b1, b2, b3, b4⟩ := b
          simp only [Prod.mk.injEq] at hab hta
          obtain ⟨h1, h2, h3⟩ := hab
          subst h1; subst h2; subst h3; subst hta
          rw [ih bs hrest htrest]

/-- Claim C8 (amended): the matcher is deterministic in its full per-frame
inputs — two runs from the same initial state whose frames agree on the
feature tuples AND on the millisecond timestamps produce the same final
state and the same emission sequence. -/
theorem c8_amended_determinism (eT : ℚ) (s : MatcherState)
    (l1 l2 : List (ℚ × ℚ × ℚ × Nat))
    (hfeat : l1.map (fun x => (x.1, x.2.1, x.2.2.1)) = l2.map (fun x => (x.1, x.2.1, x.2.2.1)))
    (htime : l1.map (fun x => x.2.2.2) = l2.map (fun x => x.2.2.2)) :
    runPattern eT s l1 = runPattern eT s l2 := by
  rw [list_ext_features_times l1 l2 hfeat htime]

/-- Claim C8 witness: the amended determinism applied to a concrete run. -/
theorem c8_amended_determinism_witness :
    runPattern 800 ⟨PatternState.IDLE, 0, 0⟩ [((1000 : ℚ), (0.05 : ℚ), (200 : ℚ), (0 : Nat))] =
      runPattern 800 ⟨PatternState.IDLE, 0, 0⟩ [((1000 : ℚ), (0.05 : ℚ), (200 : ℚ), (0 : Nat))] :=
  c8_amended_determinism 800 ⟨PatternState.IDLE, 0, 0⟩ _ _ rfl rfl
